import Mathlib

/-
Verification development for jigsaw.py, a generator of jigsaw-puzzle
cutting patterns.  The geometry is embedded over the exact reals; the
partial operations of the source (float division by zero, math.sqrt on a
negative radicand) are modelled with Except.
-/

namespace Jigsaw

noncomputable section

/-- tau = 2*math.pi, as defined at the top of jigsaw.py. -/
def tau : ℝ := 2 * Real.pi

/-- The 2D Vector class of jigsaw.py: an immutable pair of coordinates. -/
@[ext]
structure Vector where
  x : ℝ
  y : ℝ

instance : Neg Vector := ⟨fun a => ⟨-a.x, -a.y⟩⟩

instance : Add Vector := ⟨fun a b => ⟨a.x + b.x, a.y + b.y⟩⟩

instance : Sub Vector := ⟨fun a b => ⟨a.x - b.x, a.y - b.y⟩⟩

instance : HMul Vector ℝ Vector := ⟨fun a c => ⟨a.x * c, a.y * c⟩⟩

instance : HDiv Vector ℝ Vector := ⟨fun a c => ⟨a.x / c, a.y / c⟩⟩

@[simp] lemma Vector.neg_x (a : Vector) : (-a).x = -a.x := rfl

@[simp] lemma Vector.neg_y (a : Vector) : (-a).y = -a.y := rfl

@[simp] lemma Vector.add_x (a b : Vector) : (a + b).x = a.x + b.x := rfl

@[simp] lemma Vector.add_y (a b : Vector) : (a + b).y = a.y + b.y := rfl

@[simp] lemma Vector.sub_x (a b : Vector) : (a - b).x = a.x - b.x := rfl

@[simp] lemma Vector.sub_y (a b : Vector) : (a - b).y = a.y - b.y := rfl

@[simp] lemma Vector.mul_x (a : Vector) (c : ℝ) : (a * c).x = a.x * c := rfl

@[simp] lemma Vector.mul_y (a : Vector) (c : ℝ) : (a * c).y = a.y * c := rfl

@[simp] lemma Vector.div_x (a : Vector) (c : ℝ) : (a / c).x = a.x / c := rfl

@[simp] lemma Vector.div_y (a : Vector) (c : ℝ) : (a / c).y = a.y / c := rfl

/-- Vector.length: math.sqrt(self.x**2 + self.y**2). -/
def Vector.length (a : Vector) : ℝ := Real.sqrt (a.x ^ 2 + a.y ^ 2)

/-- Vector.normalized: self / self.length().  In Python the division raises
ZeroDivisionError when the length is 0; callers that can hit that case model
it with an explicit check (see make_knob). -/
def Vector.normalized (a : Vector) : Vector := a / a.length

/-- Vector.reciprocal: rotated 90 degrees counter-clockwise, (x,y) to (-y,x). -/
def Vector.reciprocal (a : Vector) : Vector := ⟨-a.y, a.x⟩

/-- Errors the Python source can raise while building a knob, plus the
DegenerateEdge error that the spec prescribes for zero-length edges (the
source has no such guard and never produces it). -/
inductive KnobError where
  | zeroDivision
  | domainError
  | degenerateEdge
  deriving DecidableEq

/-- The segment count of append_circle:
int(math.ceil(20*math.fabs(angle_span)/tau)). -/
def segment_count (start_angle end_angle : ℝ) : ℕ :=
  (⌈20 * |end_angle - start_angle| / tau⌉).toNat

/-- One sampled point of append_circle:
center + v*math.cos(th)*radius + n*math.sin(th)*radius. -/
def circle_point (v n center : Vector) (radius th : ℝ) : Vector :=
  center + v * Real.cos th * radius + n * Real.sin th * radius

/-- The points appended by one append_circle call, for i in
range(segment_count + 1), at th = start_angle + angle_span*i/segment_count. -/
def arcPts (v n center : Vector) (radius start_angle end_angle : ℝ) : List Vector :=
  (List.range (segment_count start_angle end_angle + 1)).map fun (i : ℕ) =>
    circle_point v n center radius
      (start_angle + (end_angle - start_angle) * (i : ℝ) / (segment_count start_angle end_angle : ℝ))

/-- append_circle of jigsaw.py.  When the segment count is 0 (which happens
exactly when the angle span is 0) the Python loop divides by zero at i = 0;
that failure is modelled as an error. -/
def append_circle (p : List Vector) (v n center : Vector)
    (radius start_angle end_angle : ℝ) : Except KnobError (List Vector) :=
  if segment_count start_angle end_angle = 0 then .error .zeroDivision
  else .ok (p ++ arcPts v n center radius start_angle end_angle)

/-- All intermediate quantities of make_knob, in source order.  The three
random draws of the source (random.random() for the midpoint,
random.randint(0,1) for the direction, random.random() for the radius) are
passed in as mid_r, dir_r, rad_r. -/
structure KnobGeom where
  line_length : ℝ
  mid : Vector
  v : Vector
  direction : ℝ
  n : Vector
  knob_start : Vector
  knob_end : Vector
  small_radius : ℝ
  large_radius : ℝ
  tri_base : ℝ
  tri_hyp : ℝ
  tri_height : ℝ
  large_center_distance : ℝ
  small_start_angle : ℝ
  small_end_angle : ℝ
  large_slice_angle : ℝ
  large_start_angle : ℝ
  large_end_angle : ℝ

/-- The local computations of make_knob, line by line. -/
def knobGeom (start end_ : Vector) (mid_r : ℝ) (dir_r : ℕ) (rad_r : ℝ) : KnobGeom :=
  let line_length := (end_ - start).length
  let mid := start + (end_ - start) * (0.4 + mid_r * 0.2)
  let v := (end_ - start).normalized
  let direction : ℝ := (dir_r : ℝ) * 2 - 1
  let n := v.reciprocal * direction
  let knob_start := mid - v * line_length * (0.1 : ℝ)
  let knob_end := mid + v * line_length * (0.1 : ℝ)
  let small_radius := line_length * (0.05 + rad_r * 0.01)
  let large_radius := small_radius * 1.8
  let tri_base := (knob_end - knob_start).length / 2
  let tri_hyp := small_radius + large_radius
  let tri_height := Real.sqrt (tri_hyp ^ 2 - tri_base ^ 2)
  let large_center_distance := small_radius + tri_height
  let small_start_angle := -(tau / 4)
  let small_end_angle := Real.arcsin (tri_height / tri_hyp)
  let large_slice_angle := Real.arcsin (tri_base / tri_hyp)
  let large_start_angle := tau * 3 / 4 - large_slice_angle
  let large_end_angle := -(tau / 4) + large_slice_angle
  ⟨line_length, mid, v, direction, n, knob_start, knob_end, small_radius, large_radius,
   tri_base, tri_hyp, tri_height, large_center_distance, small_start_angle, small_end_angle,
   large_slice_angle, large_start_angle, large_end_angle⟩

/-- make_knob of jigsaw.py, returning the polyline it writes to every
destination.  The normalization of a zero-length edge raises
ZeroDivisionError in Python, and math.sqrt of a negative radicand raises a
domain error; both are modelled as Except errors at the point where the
source would raise. -/
def make_knob (start end_ : Vector) (mid_r : ℝ) (dir_r : ℕ) (rad_r : ℝ) :
    Except KnobError (List Vector) :=
  if (end_ - start).length = 0 then .error .zeroDivision
  else
    let g := knobGeom start end_ mid_r dir_r rad_r
    if g.tri_hyp ^ 2 - g.tri_base ^ 2 < 0 then .error .domainError
    else do
      let p ← append_circle [start, g.knob_start] g.v g.n
        (g.knob_start + g.n * g.small_radius) g.small_radius
        g.small_start_angle g.small_end_angle
      let p ← append_circle p g.v g.n (g.mid + g.n * g.large_center_distance) g.large_radius
        g.large_start_angle g.large_end_angle
      let p ← append_circle p (-g.v) g.n (g.knob_end + g.n * g.small_radius) g.small_radius
        g.small_end_angle g.small_start_angle
      pure (p ++ [g.knob_end, end_])

/-- A destination collector: the output file of the grid cell (row, column),
as indexed by get_out in generate_separate. -/
abbrev Dest := ℕ × ℕ

/-- An internal edge of the grid, identified the way the driver loops name
it: a horizontal edge at (row, column) or a vertical edge at (row, column). -/
inductive EdgeId where
  | horiz (row column : ℕ)
  | vert (row column : ℕ)
  deriving DecidableEq

/-- The start endpoint the driver computes for an edge, with
WIDTH = COLUMN_COUNT*DPI and HEIGHT = ROW_COUNT*DPI. -/
def edge_start (R C : ℕ) (dpi : ℝ) : EdgeId → Vector
  | .horiz row column => ⟨(column : ℝ) * ((C : ℝ) * dpi) / (C : ℝ),
      ((row : ℝ) + 1) * ((R : ℝ) * dpi) / (R : ℝ)⟩
  | .vert row column => ⟨((column : ℝ) + 1) * ((C : ℝ) * dpi) / (C : ℝ),
      (row : ℝ) * ((R : ℝ) * dpi) / (R : ℝ)⟩

/-- The end endpoint the driver computes for an edge. -/
def edge_end (R C : ℕ) (dpi : ℝ) : EdgeId → Vector
  | .horiz row column => ⟨((column : ℝ) + 1) * ((C : ℝ) * dpi) / (C : ℝ),
      ((row : ℝ) + 1) * ((R : ℝ) * dpi) / (R : ℝ)⟩
  | .vert row column => ⟨((column : ℝ) + 1) * ((C : ℝ) * dpi) / (C : ℝ),
      ((row : ℝ) + 1) * ((R : ℝ) * dpi) / (R : ℝ)⟩

/-- The horizontal internal edges, in the order the driver visits them:
row in range(ROW_COUNT - 1), column in range(COLUMN_COUNT). -/
def horiz_edges (R C : ℕ) : List EdgeId :=
  (List.range (R - 1)).flatMap fun row => (List.range C).map fun column => .horiz row column

/-- The vertical internal edges, in the order the driver visits them:
row in range(ROW_COUNT), column in range(COLUMN_COUNT - 1). -/
def vert_edges (R C : ℕ) : List EdgeId :=
  (List.range R).flatMap fun row => (List.range (C - 1)).map fun column => .vert row column

/-- All internal edges, in driver order (horizontal lines then vertical). -/
def knob_edges (R C : ℕ) : List EdgeId := horiz_edges R C ++ vert_edges R C

/-- The knob curve the driver generates for one edge.  The source consumes
three values of the process-wide random stream per make_knob call; they are
modelled by the draws function, keyed by the edge being processed (each edge
is visited once, so the keying is faithful). -/
def edge_curve (R C : ℕ) (dpi : ℝ) (draws : EdgeId → ℝ × ℕ × ℝ) (e : EdgeId) :
    Except KnobError (List Vector) :=
  make_knob (edge_start R C dpi e) (edge_end R C dpi e) (draws e).1 (draws e).2.1 (draws e).2.2

/-- The neighbor destinations generate_separate hands to make_knob:
[get_out(row, column), get_out(row + 1, column)] for a horizontal edge and
[get_out(row, column), get_out(row, column + 1)] for a vertical edge. -/
def edge_dests : EdgeId → List Dest
  | .horiz row column => [(row, column), (row + 1, column)]
  | .vert row column => [(row, column), (row, column + 1)]

/-- The knob polyline writes performed by generate_separate, as events
(edge, destination, curve): for each internal edge the single curve computed
by make_knob is written to each bordering destination. -/
def knob_writes (R C : ℕ) (dpi : ℝ) (draws : EdgeId → ℝ × ℕ × ℝ) :
    List (EdgeId × Dest × Except KnobError (List Vector)) :=
  (knob_edges R C).flatMap fun e => (edge_dests e).map fun d => (e, d, edge_curve R C dpi draws e)

/-- The knob curves generated by generate_single, one per internal edge,
written to the single output file. -/
def single_knob_curves (R C : ℕ) (dpi : ℝ) (draws : EdgeId → ℝ × ℕ × ℝ) :
    List (Except KnobError (List Vector)) :=
  (knob_edges R C).map (edge_curve R C dpi draws)

/-- The left-border segments of generate_separate: for each row, a plain
two-point polyline at column = 0 written to get_out(row, 0). -/
def left_border (R C : ℕ) (dpi : ℝ) : List (Dest × List Vector) :=
  (List.range R).map fun row =>
    ((row, 0), [⟨(0 : ℝ) * ((C : ℝ) * dpi) / (C : ℝ), (row : ℝ) * ((R : ℝ) * dpi) / (R : ℝ)⟩,
                ⟨(0 : ℝ) * ((C : ℝ) * dpi) / (C : ℝ), ((row : ℝ) + 1) * ((R : ℝ) * dpi) / (R : ℝ)⟩])

/-- The right-border segments: for each row, a segment at
column = COLUMN_COUNT - 1 written to get_out(row, COLUMN_COUNT - 1). -/
def right_border (R C : ℕ) (dpi : ℝ) : List (Dest × List Vector) :=
  (List.range R).map fun row =>
    ((row, C - 1), [⟨((C - 1 : ℕ) + 1 : ℝ) * ((C : ℝ) * dpi) / (C : ℝ),
                     (row : ℝ) * ((R : ℝ) * dpi) / (R : ℝ)⟩,
                    ⟨((C - 1 : ℕ) + 1 : ℝ) * ((C : ℝ) * dpi) / (C : ℝ),
                     ((row : ℝ) + 1) * ((R : ℝ) * dpi) / (R : ℝ)⟩])

/-- The top-border segments: for each column, a segment at row = 0 written
to get_out(0, column). -/
def top_border (R C : ℕ) (dpi : ℝ) : List (Dest × List Vector) :=
  (List.range C).map fun column =>
    ((0, column), [⟨(column : ℝ) * ((C : ℝ) * dpi) / (C : ℝ),
                    (0 : ℝ) * ((R : ℝ) * dpi) / (R : ℝ)⟩,
                   ⟨((column : ℝ) + 1) * ((C : ℝ) * dpi) / (C : ℝ),
                    (0 : ℝ) * ((R : ℝ) * dpi) / (R : ℝ)⟩])

/-- The bottom-border segments: for each column, a segment at
row = ROW_COUNT - 1 written to get_out(ROW_COUNT - 1, column). -/
def bottom_border (R C : ℕ) (dpi : ℝ) : List (Dest × List Vector) :=
  (List.range C).map fun column =>
    ((R - 1, column), [⟨(column : ℝ) * ((C : ℝ) * dpi) / (C : ℝ),
                        ((R - 1 : ℕ) + 1 : ℝ) * ((R : ℝ) * dpi) / (R : ℝ)⟩,
                       ⟨((column : ℝ) + 1) * ((C : ℝ) * dpi) / (C : ℝ),
                        ((R - 1 : ℕ) + 1 : ℝ) * ((R : ℝ) * dpi) / (R : ℝ)⟩])

/-- All plain perimeter segments emitted in per-piece mode, in source order:
left, right, top, bottom. -/
def border_writes (R C : ℕ) (dpi : ℝ) : List (Dest × List Vector) :=
  left_border R C dpi ++ right_border R C dpi ++ top_border R C dpi ++ bottom_border R C dpi

lemma tau_pos : 0 < tau := by
  have := Real.pi_pos
  unfold tau
  linarith

lemma Vector.length_nonneg (a : Vector) : 0 ≤ a.length := Real.sqrt_nonneg _

lemma Vector.sq_length (a : Vector) : a.length ^ 2 = a.x ^ 2 + a.y ^ 2 :=
  Real.sq_sqrt (by positivity)

lemma Vector.length_mul (a : Vector) (c : ℝ) : (a * c).length = a.length * |c| := by
  simp only [Vector.length, Vector.mul_x, Vector.mul_y]
  rw [show (a.x * c) ^ 2 + (a.y * c) ^ 2 = (a.x ^ 2 + a.y ^ 2) * c ^ 2 by ring,
    Real.sqrt_mul (by positivity), Real.sqrt_sq_eq_abs]

lemma Vector.length_normalized (a : Vector) (h : a.length ≠ 0) : a.normalized.length = 1 := by
  have hS : a.length ^ 2 = a.x ^ 2 + a.y ^ 2 := a.sq_length
  show Real.sqrt ((a.x / a.length) ^ 2 + (a.y / a.length) ^ 2) = 1
  rw [show (a.x / a.length) ^ 2 + (a.y / a.length) ^ 2
      = (a.x ^ 2 + a.y ^ 2) / a.length ^ 2 by ring]
  rw [← hS, div_self (pow_ne_zero 2 h), Real.sqrt_one]

lemma length_sub_pos {start end_ : Vector} (h : start ≠ end_) : 0 < (end_ - start).length := by
  have hxy : (end_.x - start.x) ^ 2 + (end_.y - start.y) ^ 2 > 0 := by
    rcases (by
      by_contra hc
      push_neg at hc
      exact h (Vector.ext (by linarith [hc.1]) (by linarith [hc.2])) :
      end_.x - start.x ≠ 0 ∨ end_.y - start.y ≠ 0) with h2 | h2
    · nlinarith [sq_nonneg (end_.y - start.y), sq_abs (end_.x - start.x),
        abs_pos.mpr h2, sq_nonneg (|end_.x - start.x| - 1)]
    · nlinarith [sq_nonneg (end_.x - start.x), sq_abs (end_.y - start.y),
        abs_pos.mpr h2, sq_nonneg (|end_.y - start.y| - 1)]
  simp only [Vector.length, Vector.sub_x, Vector.sub_y]
  exact Real.sqrt_pos.mpr hxy

lemma segment_count_pos {start_angle end_angle : ℝ} (h : end_angle ≠ start_angle) :
    segment_count start_angle end_angle ≠ 0 := by
  unfold segment_count
  rw [Ne, Int.toNat_eq_zero, not_le]
  exact Int.ceil_pos.mpr
    (div_pos (mul_pos (by norm_num) (abs_pos.mpr (sub_ne_zero.mpr h))) tau_pos)

lemma segment_count_eq_zero {start_angle end_angle : ℝ} (h : end_angle = start_angle) :
    segment_count start_angle end_angle = 0 := by
  simp [segment_count, h]

lemma segment_count_full_turn : segment_count 0 tau = 20 := by
  unfold segment_count
  rw [sub_zero, abs_of_pos tau_pos, mul_div_assoc, div_self (ne_of_gt tau_pos), mul_one]
  rw [show (⌈(20 : ℝ)⌉ : ℤ) = 20 by norm_num]
  rfl

lemma arcPts_length (v n center : Vector) (radius start_angle end_angle : ℝ) :
    (arcPts v n center radius start_angle end_angle).length
      = segment_count start_angle end_angle + 1 := by
  unfold arcPts
  rw [List.length_map, List.length_range]

lemma arcPts_head (v n center : Vector) (radius start_angle end_angle : ℝ) :
    (arcPts v n center radius start_angle end_angle).head?
      = some (circle_point v n center radius start_angle) := by
  unfold arcPts
  rw [List.range_succ_eq_map]
  norm_num

lemma arcPts_getLast (v n center : Vector) (radius : ℝ) {start_angle end_angle : ℝ}
    (h : segment_count start_angle end_angle ≠ 0) :
    (arcPts v n center radius start_angle end_angle).getLast?
      = some (circle_point v n center radius end_angle) := by
  unfold arcPts
  rw [List.range_succ, List.map_append, List.map_singleton, List.getLast?_concat]
  rw [mul_div_assoc, div_self (by exact_mod_cast h), mul_one, add_sub_cancel]

lemma arcPts_cons (v n center : Vector) (radius start_angle end_angle : ℝ) :
    ∃ rest, arcPts v n center radius start_angle end_angle
      = circle_point v n center radius start_angle :: rest := by
  have h := arcPts_head v n center radius start_angle end_angle
  cases harc : arcPts v n center radius start_angle end_angle with
  | nil => rw [harc] at h; simp at h
  | cons a l =>
    rw [harc] at h
    simp only [List.head?_cons, Option.some.injEq] at h
    exact ⟨l, by rw [h]⟩

lemma arcPts_concat (v n center : Vector) (radius : ℝ) {start_angle end_angle : ℝ}
    (h : segment_count start_angle end_angle ≠ 0) :
    ∃ front, arcPts v n center radius start_angle end_angle
      = front ++ [circle_point v n center radius end_angle] := by
  have hl := arcPts_getLast v n center radius h
  have hne : arcPts v n center radius start_angle end_angle ≠ [] := by
    intro hnil
    rw [hnil] at hl
    simp at hl
  refine ⟨(arcPts v n center radius start_angle end_angle).dropLast, ?_⟩
  have hgl : (arcPts v n center radius start_angle end_angle).getLast hne
      = circle_point v n center radius end_angle := by
    have h2 := List.getLast?_eq_getLast (arcPts v n center radius start_angle end_angle) hne
    rw [h2] at hl
    exact Option.some.inj hl
  rw [← hgl]
  exact (List.dropLast_append_getLast hne).symm

lemma append_circle_ok (p : List Vector) (v n center : Vector) (radius : ℝ)
    {start_angle end_angle : ℝ} (h : end_angle ≠ start_angle) :
    append_circle p v n center radius start_angle end_angle
      = .ok (p ++ arcPts v n center radius start_angle end_angle) := by
  unfold append_circle
  rw [if_neg (segment_count_pos h)]

lemma bind_ok_eq {ε α β : Type} (a : α) (f : α → Except ε β) :
    (Except.ok a : Except ε α) >>= f = f a := rfl

section KnobGeomFacts

variable (start end_ : Vector) (mid_r rad_r : ℝ) (dir_r : ℕ)

lemma line_length_def :
    (knobGeom start end_ mid_r dir_r rad_r).line_length = (end_ - start).length := rfl

lemma mid_def : (knobGeom start end_ mid_r dir_r rad_r).mid
    = start + (end_ - start) * (0.4 + mid_r * 0.2) := rfl

lemma v_def : (knobGeom start end_ mid_r dir_r rad_r).v = (end_ - start).normalized := rfl

lemma direction_def :
    (knobGeom start end_ mid_r dir_r rad_r).direction = (dir_r : ℝ) * 2 - 1 := rfl

lemma n_def : (knobGeom start end_ mid_r dir_r rad_r).n
    = (knobGeom start end_ mid_r dir_r rad_r).v.reciprocal
      * (knobGeom start end_ mid_r dir_r rad_r).direction := rfl

lemma knob_start_def : (knobGeom start end_ mid_r dir_r rad_r).knob_start
    = (knobGeom start end_ mid_r dir_r rad_r).mid
      - (knobGeom start end_ mid_r dir_r rad_r).v
        * (knobGeom start end_ mid_r dir_r rad_r).line_length * (0.1 : ℝ) := rfl

lemma knob_end_def : (knobGeom start end_ mid_r dir_r rad_r).knob_end
    = (knobGeom start end_ mid_r dir_r rad_r).mid
      + (knobGeom start end_ mid_r dir_r rad_r).v
        * (knobGeom start end_ mid_r dir_r rad_r).line_length * (0.1 : ℝ) := rfl

lemma small_radius_def : (knobGeom start end_ mid_r dir_r rad_r).small_radius
    = (knobGeom start end_ mid_r dir_r rad_r).line_length * (0.05 + rad_r * 0.01) := rfl

lemma large_radius_def : (knobGeom start end_ mid_r dir_r rad_r).large_radius
    = (knobGeom start end_ mid_r dir_r rad_r).small_radius * 1.8 := rfl

lemma tri_base_def : (knobGeom start end_ mid_r dir_r rad_r).tri_base
    = ((knobGeom start end_ mid_r dir_r rad_r).knob_end
      - (knobGeom start end_ mid_r dir_r rad_r).knob_start).length / 2 := rfl

lemma tri_hyp_def : (knobGeom start end_ mid_r dir_r rad_r).tri_hyp
    = (knobGeom start end_ mid_r dir_r rad_r).small_radius
      + (knobGeom start end_ mid_r dir_r rad_r).large_radius := rfl

lemma tri_height_def : (knobGeom start end_ mid_r dir_r rad_r).tri_height
    = Real.sqrt ((knobGeom start end_ mid_r dir_r rad_r).tri_hyp ^ 2
      - (knobGeom start end_ mid_r dir_r rad_r).tri_base ^ 2) := rfl

lemma large_center_distance_def :
    (knobGeom start end_ mid_r dir_r rad_r).large_center_distance
    = (knobGeom start end_ mid_r dir_r rad_r).small_radius
      + (knobGeom start end_ mid_r dir_r rad_r).tri_height := rfl

lemma small_start_angle_def :
    (knobGeom start end_ mid_r dir_r rad_r).small_start_angle = -(tau / 4) := rfl

lemma small_end_angle_def : (knobGeom start end_ mid_r dir_r rad_r).small_end_angle
    = Real.arcsin ((knobGeom start end_ mid_r dir_r rad_r).tri_height
      / (knobGeom start end_ mid_r dir_r rad_r).tri_hyp) := rfl

lemma large_slice_angle_def : (knobGeom start end_ mid_r dir_r rad_r).large_slice_angle
    = Real.arcsin ((knobGeom start end_ mid_r dir_r rad_r).tri_base
      / (knobGeom start end_ mid_r dir_r rad_r).tri_hyp) := rfl

lemma large_start_angle_def : (knobGeom start end_ mid_r dir_r rad_r).large_start_angle
    = tau * 3 / 4 - (knobGeom start end_ mid_r dir_r rad_r).large_slice_angle := rfl

lemma large_end_angle_def : (knobGeom start end_ mid_r dir_r rad_r).large_end_angle
    = -(tau / 4) + (knobGeom start end_ mid_r dir_r rad_r).large_slice_angle := rfl

end KnobGeomFacts

section GeomDerived

variable (s e : Vector) (m : ℝ) (d : ℕ) (r : ℝ)

lemma line_length_pos (h1 : s ≠ e) :
    0 < (knobGeom s e m d r).line_length := length_sub_pos h1

lemma v_length_one (h1 : s ≠ e) :
    (knobGeom s e m d r).v.length = 1 := by
  rw [v_def]
  exact Vector.length_normalized _ (ne_of_gt (length_sub_pos h1))

lemma tri_base_eq (h1 : s ≠ e) :
    (knobGeom s e m d r).tri_base = (knobGeom s e m d r).line_length * 0.1 := by
  have hke : (knobGeom s e m d r).knob_end - (knobGeom s e m d r).knob_start
      = (knobGeom s e m d r).v * ((knobGeom s e m d r).line_length * 0.2) := by
    rw [knob_end_def, knob_start_def]
    ext <;> simp <;> ring
  rw [tri_base_def, hke, Vector.length_mul, v_length_one s e m d r h1, one_mul,
    abs_of_nonneg (mul_nonneg (le_of_lt (line_length_pos s e m d r h1)) (by norm_num))]
  ring

lemma small_radius_lb (h1 : s ≠ e) (h2 : 0 ≤ r) :
    0.05 * (knobGeom s e m d r).line_length ≤ (knobGeom s e m d r).small_radius := by
  have hL := line_length_pos s e m d r h1
  rw [small_radius_def]
  nlinarith

lemma small_radius_pos (h1 : s ≠ e) (h2 : 0 ≤ r) :
    0 < (knobGeom s e m d r).small_radius :=
  lt_of_lt_of_le (mul_pos (by norm_num) (line_length_pos s e m d r h1))
    (small_radius_lb s e m d r h1 h2)

lemma tri_hyp_eq :
    (knobGeom s e m d r).tri_hyp = (knobGeom s e m d r).small_radius * 2.8 := by
  rw [tri_hyp_def, large_radius_def]
  ring

lemma tri_hyp_pos (h1 : s ≠ e) (h2 : 0 ≤ r) :
    0 < (knobGeom s e m d r).tri_hyp := by
  rw [tri_hyp_eq]
  nlinarith [small_radius_pos s e m d r h1 h2]

lemma radicand_pos (h1 : s ≠ e) (h2 : 0 ≤ r) :
    0 < (knobGeom s e m d r).tri_hyp ^ 2 - (knobGeom s e m d r).tri_base ^ 2 := by
  have hL := line_length_pos s e m d r h1
  have hs := small_radius_lb s e m d r h1 h2
  have hs2 : (0.05 * (knobGeom s e m d r).line_length) ^ 2
      ≤ (knobGeom s e m d r).small_radius ^ 2 := by
    nlinarith
  rw [tri_hyp_eq, tri_base_eq s e m d r h1]
  nlinarith [mul_pos hL hL]

lemma tri_height_nonneg : 0 ≤ (knobGeom s e m d r).tri_height := by
  rw [tri_height_def]
  exact Real.sqrt_nonneg _

lemma tri_height_sq (h1 : s ≠ e) (h2 : 0 ≤ r) :
    (knobGeom s e m d r).tri_height ^ 2
      = (knobGeom s e m d r).tri_hyp ^ 2 - (knobGeom s e m d r).tri_base ^ 2 := by
  rw [tri_height_def]
  exact Real.sq_sqrt (le_of_lt (radicand_pos s e m d r h1 h2))

lemma tri_height_le_hyp (h1 : s ≠ e) (h2 : 0 ≤ r) :
    (knobGeom s e m d r).tri_height ≤ (knobGeom s e m d r).tri_hyp := by
  rw [tri_height_def]
  calc Real.sqrt ((knobGeom s e m d r).tri_hyp ^ 2 - (knobGeom s e m d r).tri_base ^ 2)
      ≤ Real.sqrt ((knobGeom s e m d r).tri_hyp ^ 2) :=
        Real.sqrt_le_sqrt (by nlinarith [sq_nonneg (knobGeom s e m d r).tri_base])
    _ = (knobGeom s e m d r).tri_hyp := Real.sqrt_sq (tri_hyp_pos s e m d r h1 h2).le

lemma tri_base_nonneg : 0 ≤ (knobGeom s e m d r).tri_base := by
  rw [tri_base_def]
  exact div_nonneg (Vector.length_nonneg _) (by norm_num)

lemma tri_base_le_hyp (h1 : s ≠ e) (h2 : 0 ≤ r) :
    (knobGeom s e m d r).tri_base ≤ (knobGeom s e m d r).tri_hyp := by
  nlinarith [radicand_pos s e m d r h1 h2, tri_base_nonneg s e m d r,
    tri_hyp_pos s e m d r h1 h2]

lemma sin_small_end (h1 : s ≠ e) (h2 : 0 ≤ r) :
    Real.sin (knobGeom s e m d r).small_end_angle
      = (knobGeom s e m d r).tri_height / (knobGeom s e m d r).tri_hyp := by
  rw [small_end_angle_def]
  refine Real.sin_arcsin ?_ ?_
  · exact le_trans (by norm_num)
      (div_nonneg (tri_height_nonneg s e m d r) (tri_hyp_pos s e m d r h1 h2).le)
  · exact (div_le_one (tri_hyp_pos s e m d r h1 h2)).mpr (tri_height_le_hyp s e m d r h1 h2)

lemma cos_small_end (h1 : s ≠ e) (h2 : 0 ≤ r) :
    Real.cos (knobGeom s e m d r).small_end_angle
      = (knobGeom s e m d r).tri_base / (knobGeom s e m d r).tri_hyp := by
  rw [small_end_angle_def, Real.cos_arcsin]
  have hh := tri_height_sq s e m d r h1 h2
  have hp := (tri_hyp_pos s e m d r h1 h2).ne'
  rw [show 1 - ((knobGeom s e m d r).tri_height / (knobGeom s e m d r).tri_hyp) ^ 2
      = ((knobGeom s e m d r).tri_base / (knobGeom s e m d r).tri_hyp) ^ 2 from by
    field_simp
    linarith]
  exact Real.sqrt_sq (div_nonneg (tri_base_nonneg s e m d r) (tri_hyp_pos s e m d r h1 h2).le)

lemma sin_slice (h1 : s ≠ e) (h2 : 0 ≤ r) :
    Real.sin (knobGeom s e m d r).large_slice_angle
      = (knobGeom s e m d r).tri_base / (knobGeom s e m d r).tri_hyp := by
  rw [large_slice_angle_def]
  refine Real.sin_arcsin ?_ ?_
  · exact le_trans (by norm_num)
      (div_nonneg (tri_base_nonneg s e m d r) (tri_hyp_pos s e m d r h1 h2).le)
  · exact (div_le_one (tri_hyp_pos s e m d r h1 h2)).mpr (tri_base_le_hyp s e m d r h1 h2)

lemma cos_slice (h1 : s ≠ e) (h2 : 0 ≤ r) :
    Real.cos (knobGeom s e m d r).large_slice_angle
      = (knobGeom s e m d r).tri_height / (knobGeom s e m d r).tri_hyp := by
  rw [large_slice_angle_def, Real.cos_arcsin]
  have hh := tri_height_sq s e m d r h1 h2
  have hp := (tri_hyp_pos s e m d r h1 h2).ne'
  rw [show 1 - ((knobGeom s e m d r).tri_base / (knobGeom s e m d r).tri_hyp) ^ 2
      = ((knobGeom s e m d r).tri_height / (knobGeom s e m d r).tri_hyp) ^ 2 from by
    field_simp
    linarith]
  exact Real.sqrt_sq
    (div_nonneg (tri_height_nonneg s e m d r) (tri_hyp_pos s e m d r h1 h2).le)

lemma small_start_eq :
    (knobGeom s e m d r).small_start_angle = -(Real.pi / 2) := by
  rw [small_start_angle_def]
  unfold tau
  ring

lemma large_start_eq :
    (knobGeom s e m d r).large_start_angle
      = Real.pi + (Real.pi / 2 - (knobGeom s e m d r).large_slice_angle) := by
  rw [large_start_angle_def]
  unfold tau
  ring

lemma large_end_eq :
    (knobGeom s e m d r).large_end_angle
      = (knobGeom s e m d r).large_slice_angle - Real.pi / 2 := by
  rw [large_end_angle_def]
  unfold tau
  ring

lemma cos_large_start (h1 : s ≠ e) (h2 : 0 ≤ r) :
    Real.cos (knobGeom s e m d r).large_start_angle
      = -((knobGeom s e m d r).tri_base / (knobGeom s e m d r).tri_hyp) := by
  rw [large_start_eq, Real.cos_add, Real.cos_pi, Real.sin_pi, Real.cos_pi_div_two_sub,
    sin_slice s e m d r h1 h2]
  ring

lemma sin_large_start (h1 : s ≠ e) (h2 : 0 ≤ r) :
    Real.sin (knobGeom s e m d r).large_start_angle
      = -((knobGeom s e m d r).tri_height / (knobGeom s e m d r).tri_hyp) := by
  rw [large_start_eq, Real.sin_add, Real.sin_pi, Real.cos_pi, Real.sin_pi_div_two_sub,
    cos_slice s e m d r h1 h2]
  ring

lemma cos_large_end (h1 : s ≠ e) (h2 : 0 ≤ r) :
    Real.cos (knobGeom s e m d r).large_end_angle
      = (knobGeom s e m d r).tri_base / (knobGeom s e m d r).tri_hyp := by
  rw [large_end_eq, Real.cos_sub, Real.cos_pi_div_two, Real.sin_pi_div_two,
    sin_slice s e m d r h1 h2]
  ring

lemma sin_large_end (h1 : s ≠ e) (h2 : 0 ≤ r) :
    Real.sin (knobGeom s e m d r).large_end_angle
      = -((knobGeom s e m d r).tri_height / (knobGeom s e m d r).tri_hyp) := by
  rw [large_end_eq, Real.sin_sub, Real.sin_pi_div_two, Real.cos_pi_div_two,
    cos_slice s e m d r h1 h2]
  ring

lemma small_arc_span_ne (h1 : s ≠ e) (h2 : 0 ≤ r) :
    (knobGeom s e m d r).small_end_angle ≠ (knobGeom s e m d r).small_start_angle := by
  have hnn : 0 ≤ (knobGeom s e m d r).small_end_angle := by
    rw [small_end_angle_def]
    exact Real.arcsin_nonneg.mpr
      (div_nonneg (tri_height_nonneg s e m d r) (tri_hyp_pos s e m d r h1 h2).le)
  have hp := Real.pi_pos
  intro he
  rw [small_start_eq s e m d r] at he
  rw [he] at hnn
  linarith

lemma large_arc_span_ne (h1 : s ≠ e) (h2 : 0 ≤ r) :
    (knobGeom s e m d r).large_end_angle ≠ (knobGeom s e m d r).large_start_angle := by
  have hle : (knobGeom s e m d r).large_slice_angle ≤ Real.pi / 2 := by
    rw [large_slice_angle_def]
    exact Real.arcsin_le_pi_div_two _
  have hp := Real.pi_pos
  intro he
  rw [large_end_eq s e m d r, large_start_eq s e m d r] at he
  linarith

lemma exit_arc_span_ne (h1 : s ≠ e) (h2 : 0 ≤ r) :
    (knobGeom s e m d r).small_start_angle ≠ (knobGeom s e m d r).small_end_angle :=
  (small_arc_span_ne s e m d r h1 h2).symm

lemma make_knob_eq (h1 : s ≠ e) (h2 : 0 ≤ r) :
    make_knob s e m d r = .ok
      (((([s, (knobGeom s e m d r).knob_start]
        ++ arcPts (knobGeom s e m d r).v (knobGeom s e m d r).n
            ((knobGeom s e m d r).knob_start
              + (knobGeom s e m d r).n * (knobGeom s e m d r).small_radius)
            (knobGeom s e m d r).small_radius
            (knobGeom s e m d r).small_start_angle (knobGeom s e m d r).small_end_angle)
        ++ arcPts (knobGeom s e m d r).v (knobGeom s e m d r).n
            ((knobGeom s e m d r).mid
              + (knobGeom s e m d r).n * (knobGeom s e m d r).large_center_distance)
            (knobGeom s e m d r).large_radius
            (knobGeom s e m d r).large_start_angle (knobGeom s e m d r).large_end_angle)
        ++ arcPts (-(knobGeom s e m d r).v) (knobGeom s e m d r).n
            ((knobGeom s e m d r).knob_end
              + (knobGeom s e m d r).n * (knobGeom s e m d r).small_radius)
            (knobGeom s e m d r).small_radius
            (knobGeom s e m d r).small_end_angle (knobGeom s e m d r).small_start_angle)
        ++ [(knobGeom s e m d r).knob_end, e]) := by
  unfold make_knob
  rw [if_neg (length_sub_pos h1).ne']
  rw [if_neg (not_lt.mpr (radicand_pos s e m d r h1 h2).le)]
  rw [append_circle_ok _ _ _ _ _ (small_arc_span_ne s e m d r h1 h2)]
  simp only [bind_ok_eq]
  rw [append_circle_ok _ _ _ _ _ (large_arc_span_ne s e m d r h1 h2)]
  simp only [bind_ok_eq]
  rw [append_circle_ok _ _ _ _ _ (exit_arc_span_ne s e m d r h1 h2)]
  simp only [bind_ok_eq]
  rfl

end GeomDerived

lemma horiz_edges_length (R C : ℕ) : (horiz_edges R C).length = (R - 1) * C := by
  simp [horiz_edges, List.length_flatMap, Function.comp_def, mul_comm]

lemma vert_edges_length (R C : ℕ) : (vert_edges R C).length = R * (C - 1) := by
  simp [vert_edges, List.length_flatMap, Function.comp_def, mul_comm]

lemma knob_edges_length (R C : ℕ) :
    (knob_edges R C).length = (R - 1) * C + R * (C - 1) := by
  rw [knob_edges, List.length_append, horiz_edges_length, vert_edges_length]

/-- C7: for every arc request with nonzero span, append_circle succeeds and
appends exactly segment_count + 1 points, where segment_count is
ceil(20*|end_angle - start_angle|/tau); each appended point equals
center + v*cos(th)*radius + n*sin(th)*radius at angles th linearly
interpolated from start_angle to end_angle, and a full-circle span of tau
(= 2*pi) gives segment_count = 20, hence exactly 21 points. -/
theorem C7_arc_sampler_points (p : List Vector) (v n center : Vector)
    (radius start_angle end_angle : ℝ) (h : end_angle ≠ start_angle) :
    ∃ q, append_circle p v n center radius start_angle end_angle = .ok q
      ∧ q.length = p.length + (segment_count start_angle end_angle + 1)
      ∧ (∀ i : ℕ, i < segment_count start_angle end_angle + 1 →
          q[p.length + i]? = some (circle_point v n center radius
            (start_angle + (end_angle - start_angle) * (i : ℝ)
              / (segment_count start_angle end_angle : ℝ))))
      ∧ (end_angle - start_angle = tau → segment_count start_angle end_angle = 20) := by
  refine ⟨p ++ arcPts v n center radius start_angle end_angle,
    append_circle_ok p v n center radius h, ?_, ?_, ?_⟩
  · rw [List.length_append, arcPts_length]
  · intro i hi
    rw [List.getElem?_append_right (Nat.le_add_right _ _)]
    rw [Nat.add_sub_cancel_left]
    unfold arcPts
    rw [List.getElem?_map, List.getElem?_range hi, Option.map_some']
  · intro hspan
    unfold segment_count
    rw [hspan, abs_of_pos tau_pos, mul_div_assoc, div_self (ne_of_gt tau_pos), mul_one]
    rw [show (⌈(20 : ℝ)⌉ : ℤ) = 20 by norm_num]
    rfl

/-- Witness for C7 at a concrete full-circle request: the span tau is
nonzero and the sampler returns exactly 21 points. -/
theorem C7_arc_sampler_points_witness :
    tau ≠ (0 : ℝ)
    ∧ ∃ q, append_circle [] ⟨1, 0⟩ ⟨0, 1⟩ ⟨0, 0⟩ 1 0 tau = .ok q ∧ q.length = 21 := by
  refine ⟨ne_of_gt tau_pos, ?_⟩
  obtain ⟨q, hq, hlen, _, hfull⟩ :=
    C7_arc_sampler_points [] ⟨1, 0⟩ ⟨0, 1⟩ ⟨0, 0⟩ 1 0 tau (ne_of_gt tau_pos)
  refine ⟨q, hq, ?_⟩
  rw [hlen, hfull (by ring)]
  rfl

/-- C5 counterexample: a request with start_angle = end_angle = 0 has
segment count 0 (the claimed minimum of 1 does not exist in the code) and
the sampler fails with the division-by-zero error instead of yielding a
point. -/
theorem C5_counterexample :
    segment_count 0 0 = 0
    ∧ append_circle [] ⟨1, 0⟩ ⟨0, 1⟩ ⟨0, 0⟩ 1 0 0 = .error KnobError.zeroDivision := by
  have h : segment_count 0 0 = 0 := segment_count_eq_zero rfl
  refine ⟨h, ?_⟩
  unfold append_circle
  rw [if_pos h]

/-- C5 amended: the segment count is ceil(20*|span|/tau) with no minimum
clamp; for a nonzero span it is at least 1 and the sampler succeeds, but a
request with start_angle = end_angle has segment count 0 and fails with a
division-by-zero error (the Python loop divides by segment_count at i = 0)
rather than yielding 1 point. -/
theorem C5_amended_segment_count (p : List Vector) (v n center : Vector)
    (radius start_angle end_angle : ℝ) :
    (end_angle ≠ start_angle → 1 ≤ segment_count start_angle end_angle
      ∧ ∃ q, append_circle p v n center radius start_angle end_angle = .ok q)
    ∧ (end_angle = start_angle →
      append_circle p v n center radius start_angle end_angle
        = .error KnobError.zeroDivision) := by
  constructor
  · intro h
    exact ⟨Nat.one_le_iff_ne_zero.mpr (segment_count_pos h),
      ⟨_, append_circle_ok p v n center radius h⟩⟩
  · intro h
    unfold append_circle
    rw [if_pos (segment_count_eq_zero h)]

/-- Witness for the amended C5 at concrete inputs: a full-turn request
succeeds with segment count at least 1, and a zero-span request fails. -/
theorem C5_amended_segment_count_witness :
    (1 ≤ segment_count 0 tau ∧ ∃ q, append_circle [] ⟨1, 0⟩ ⟨0, 1⟩ ⟨0, 0⟩ 1 0 tau = .ok q)
    ∧ append_circle [] ⟨1, 0⟩ ⟨0, 1⟩ ⟨0, 0⟩ 1 0 0 = .error KnobError.zeroDivision :=
  ⟨(C5_amended_segment_count [] ⟨1, 0⟩ ⟨0, 1⟩ ⟨0, 0⟩ 1 0 tau).1 (ne_of_gt tau_pos),
   (C5_amended_segment_count [] ⟨1, 0⟩ ⟨0, 1⟩ ⟨0, 0⟩ 1 0 0).2 rfl⟩

/-- C6 counterexample: make_knob on the zero-length edge from (0,0) to
(0,0) fails with the ZeroDivisionError of the normalization, which is not
the DegenerateEdge error the claim prescribes. -/
theorem C6_counterexample :
    make_knob ⟨0, 0⟩ ⟨0, 0⟩ 0 0 0 = .error KnobError.zeroDivision
    ∧ KnobError.zeroDivision ≠ KnobError.degenerateEdge := by
  constructor
  · unfold make_knob
    have hz : ((⟨0, 0⟩ : Vector) - ⟨0, 0⟩).length = 0 := by
      show Real.sqrt (((0 : ℝ) - 0) ^ 2 + ((0 : ℝ) - 0) ^ 2) = 0
      rw [show ((0 : ℝ) - 0) ^ 2 + ((0 : ℝ) - 0) ^ 2 = 0 by norm_num]
      exact Real.sqrt_zero
    rw [if_pos hz]
  · intro h
    exact KnobError.noConfusion h

/-- C6 amended: when the knob generator is called with start = end, the
normalization divides by zero and the call fails with that
ZeroDivisionError; the code contains no DegenerateEdge guard. -/
theorem C6_amended_zero_length (s e : Vector) (m : ℝ) (d : ℕ) (r : ℝ) (h : s = e) :
    make_knob s e m d r = .error KnobError.zeroDivision := by
  subst h
  unfold make_knob
  have hz : ((s - s : Vector)).length = 0 := by
    show Real.sqrt ((s.x - s.x) ^ 2 + (s.y - s.y) ^ 2) = 0
    rw [show (s.x - s.x) ^ 2 + (s.y - s.y) ^ 2 = 0 by ring]
    exact Real.sqrt_zero
  rw [if_pos hz]

/-- Witness for the amended C6 at a concrete degenerate edge. -/
theorem C6_amended_zero_length_witness :
    (⟨0, 0⟩ : Vector) = ⟨0, 0⟩
    ∧ make_knob ⟨0, 0⟩ ⟨0, 0⟩ (1/2) 1 (1/2) = .error KnobError.zeroDivision :=
  ⟨rfl, C6_amended_zero_length ⟨0, 0⟩ ⟨0, 0⟩ (1/2) 1 (1/2) rfl⟩

/-- C9: the driver enumerates exactly (R-1)*C + R*(C-1) internal edges and
invokes the knob generator once per edge (in single-file mode the list of
generated curves has exactly that length), and in per-piece mode it emits
exactly 2R + 2C plain perimeter segments: R each for the left and right
borders and C each for the top and bottom borders. -/
theorem C9_edge_and_border_counts (R C : ℕ) (dpi : ℝ) (draws : EdgeId → ℝ × ℕ × ℝ) :
    (knob_edges R C).length = (R - 1) * C + R * (C - 1)
    ∧ (single_knob_curves R C dpi draws).length = (R - 1) * C + R * (C - 1)
    ∧ (left_border R C dpi).length = R
    ∧ (right_border R C dpi).length = R
    ∧ (top_border R C dpi).length = C
    ∧ (bottom_border R C dpi).length = C
    ∧ (border_writes R C dpi).length = 2 * R + 2 * C := by
  refine ⟨knob_edges_length R C, ?_, ?_, ?_, ?_, ?_, ?_⟩
  · rw [single_knob_curves, List.length_map, knob_edges_length]
  · rw [left_border, List.length_map, List.length_range]
  · rw [right_border, List.length_map, List.length_range]
  · rw [top_border, List.length_map, List.length_range]
  · rw [bottom_border, List.length_map, List.length_range]
  · rw [border_writes, List.length_append, List.length_append, List.length_append,
      left_border, right_border, top_border, bottom_border]
    simp only [List.length_map, List.length_range]
    ring

/-- C3: for every edge with positive length (start different from end) and
every random draw with a nonnegative radius draw, make_knob succeeds and the
produced point sequence has start as its first element and end as its last
element, with exact equality. -/
theorem C3_starts_and_ends_exactly (s e : Vector) (m : ℝ) (d : ℕ) (r : ℝ)
    (h1 : s ≠ e) (h2 : 0 ≤ r) :
    ∃ p, make_knob s e m d r = .ok p ∧ p.head? = some s ∧ p.getLast? = some e := by
  refine ⟨_, make_knob_eq s e m d r h1 h2, ?_, ?_⟩
  · simp
  · rw [List.getLast?_append]
    rfl

/-- Witness for C3 on the concrete unit edge from (0,0) to (1,0). -/
theorem C3_starts_and_ends_exactly_witness :
    ((⟨0, 0⟩ : Vector) ≠ ⟨1, 0⟩ ∧ (0 : ℝ) ≤ 0)
    ∧ ∃ p, make_knob ⟨0, 0⟩ ⟨1, 0⟩ 0 0 0 = .ok p
        ∧ p.head? = some ⟨0, 0⟩ ∧ p.getLast? = some ⟨1, 0⟩ :=
  ⟨⟨fun h => zero_ne_one (congrArg Vector.x h), le_refl 0⟩,
   C3_starts_and_ends_exactly ⟨0, 0⟩ ⟨1, 0⟩ 0 0 0
     (fun h => zero_ne_one (congrArg Vector.x h)) (le_refl 0)⟩

/-- C4: for every edge with positive length and every radius draw in [0,1]
(radius fraction in [0.05, 0.06]), the radicand tri_hyp^2 - tri_base^2 is
strictly positive, so the domain-error branch of the square root is
unreachable and make_knob never returns the domain error. -/
theorem C4_radicand_positive (s e : Vector) (m : ℝ) (d : ℕ) (r : ℝ)
    (h1 : s ≠ e) (h2 : 0 ≤ r) (h3 : r ≤ 1) :
    0 < (knobGeom s e m d r).tri_hyp ^ 2 - (knobGeom s e m d r).tri_base ^ 2
    ∧ make_knob s e m d r ≠ .error KnobError.domainError := by
  refine ⟨radicand_pos s e m d r h1 h2, ?_⟩
  rw [make_knob_eq s e m d r h1 h2]
  intro hcontra
  exact Except.noConfusion hcontra

/-- Witness for C4 on the concrete unit edge from (0,0) to (1,0). -/
theorem C4_radicand_positive_witness :
    ((⟨0, 0⟩ : Vector) ≠ ⟨1, 0⟩ ∧ (0 : ℝ) ≤ 0 ∧ (0 : ℝ) ≤ 1)
    ∧ 0 < (knobGeom ⟨0, 0⟩ ⟨1, 0⟩ 0 0 0).tri_hyp ^ 2
        - (knobGeom ⟨0, 0⟩ ⟨1, 0⟩ 0 0 0).tri_base ^ 2
    ∧ make_knob ⟨0, 0⟩ ⟨1, 0⟩ 0 0 0 ≠ .error KnobError.domainError := by
  have hne : (⟨0, 0⟩ : Vector) ≠ ⟨1, 0⟩ := fun h => zero_ne_one (congrArg Vector.x h)
  obtain ⟨ha, hb⟩ := C4_radicand_positive ⟨0, 0⟩ ⟨1, 0⟩ 0 0 0 hne le_rfl zero_le_one
  exact ⟨⟨hne, le_rfl, zero_le_one⟩, ha, hb⟩

/-- C10: in exact arithmetic the first sampled point of the entry small arc
(angle -tau/4 about knob_start + n*small_radius) equals knob_start, and the
last sampled point of the exit small arc (angle -tau/4 about
knob_end + n*small_radius in the basis (-v, n)) equals knob_end; hence in
the emitted sequence knob_start and knob_end each appear twice in
consecutive positions and the polyline is continuous where the straight
runs meet the arcs. -/
theorem C10_junction_points (s e : Vector) (m : ℝ) (d : ℕ) (r : ℝ)
    (h1 : s ≠ e) (h2 : 0 ≤ r) :
    circle_point (knobGeom s e m d r).v (knobGeom s e m d r).n
        ((knobGeom s e m d r).knob_start
          + (knobGeom s e m d r).n * (knobGeom s e m d r).small_radius)
        (knobGeom s e m d r).small_radius (knobGeom s e m d r).small_start_angle
      = (knobGeom s e m d r).knob_start
    ∧ circle_point (-(knobGeom s e m d r).v) (knobGeom s e m d r).n
        ((knobGeom s e m d r).knob_end
          + (knobGeom s e m d r).n * (knobGeom s e m d r).small_radius)
        (knobGeom s e m d r).small_radius (knobGeom s e m d r).small_start_angle
      = (knobGeom s e m d r).knob_end
    ∧ ∃ p rest front, make_knob s e m d r = .ok p
        ∧ p = s :: (knobGeom s e m d r).knob_start
            :: (knobGeom s e m d r).knob_start :: rest
        ∧ p = front
            ++ [(knobGeom s e m d r).knob_end, (knobGeom s e m d r).knob_end, e] := by
  have hcs : Real.cos (knobGeom s e m d r).small_start_angle = 0 := by
    rw [small_start_eq, Real.cos_neg, Real.cos_pi_div_two]
  have hss : Real.sin (knobGeom s e m d r).small_start_angle = -1 := by
    rw [small_start_eq, Real.sin_neg, Real.sin_pi_div_two]
  have h1eq : circle_point (knobGeom s e m d r).v (knobGeom s e m d r).n
      ((knobGeom s e m d r).knob_start
        + (knobGeom s e m d r).n * (knobGeom s e m d r).small_radius)
      (knobGeom s e m d r).small_radius (knobGeom s e m d r).small_start_angle
      = (knobGeom s e m d r).knob_start := by
    unfold circle_point
    rw [hcs, hss]
    ext <;> simp
  have h2eq : circle_point (-(knobGeom s e m d r).v) (knobGeom s e m d r).n
      ((knobGeom s e m d r).knob_end
        + (knobGeom s e m d r).n * (knobGeom s e m d r).small_radius)
      (knobGeom s e m d r).small_radius (knobGeom s e m d r).small_start_angle
      = (knobGeom s e m d r).knob_end := by
    unfold circle_point
    rw [hcs, hss]
    ext <;> simp
  refine ⟨h1eq, h2eq, ?_⟩
  obtain ⟨rest1, hA1⟩ := arcPts_cons (knobGeom s e m d r).v (knobGeom s e m d r).n
    ((knobGeom s e m d r).knob_start
      + (knobGeom s e m d r).n * (knobGeom s e m d r).small_radius)
    (knobGeom s e m d r).small_radius (knobGeom s e m d r).small_start_angle
    (knobGeom s e m d r).small_end_angle
  obtain ⟨front3, hA3⟩ := arcPts_concat (-(knobGeom s e m d r).v) (knobGeom s e m d r).n
    ((knobGeom s e m d r).knob_end
      + (knobGeom s e m d r).n * (knobGeom s e m d r).small_radius)
    (knobGeom s e m d r).small_radius
    (segment_count_pos (exit_arc_span_ne s e m d r h1 h2))
  have hcons : (((([s, (knobGeom s e m d r).knob_start]
        ++ arcPts (knobGeom s e m d r).v (knobGeom s e m d r).n
            ((knobGeom s e m d r).knob_start
              + (knobGeom s e m d r).n * (knobGeom s e m d r).small_radius)
            (knobGeom s e m d r).small_radius
            (knobGeom s e m d r).small_start_angle (knobGeom s e m d r).small_end_angle)
        ++ arcPts (knobGeom s e m d r).v (knobGeom s e m d r).n
            ((knobGeom s e m d r).mid
              + (knobGeom s e m d r).n * (knobGeom s e m d r).large_center_distance)
            (knobGeom s e m d r).large_radius
            (knobGeom s e m d r).large_start_angle (knobGeom s e m d r).large_end_angle)
        ++ arcPts (-(knobGeom s e m d r).v) (knobGeom s e m d r).n
            ((knobGeom s e m d r).knob_end
              + (knobGeom s e m d r).n * (knobGeom s e m d r).small_radius)
            (knobGeom s e m d r).small_radius
            (knobGeom s e m d r).small_end_angle (knobGeom s e m d r).small_start_angle)
        ++ [(knobGeom s e m d r).knob_end, e])
      = s :: (knobGeom s e m d r).knob_start :: (knobGeom s e m d r).knob_start
        :: (rest1
          ++ (arcPts (knobGeom s e m d r).v (knobGeom s e m d r).n
              ((knobGeom s e m d r).mid
                + (knobGeom s e m d r).n * (knobGeom s e m d r).large_center_distance)
              (knobGeom s e m d r).large_radius
              (knobGeom s e m d r).large_start_angle (knobGeom s e m d r).large_end_angle
            ++ (arcPts (-(knobGeom s e m d r).v) (knobGeom s e m d r).n
                ((knobGeom s e m d r).knob_end
                  + (knobGeom s e m d r).n * (knobGeom s e m d r).small_radius)
                (knobGeom s e m d r).small_radius
                (knobGeom s e m d r).small_end_angle (knobGeom s e m d r).small_start_angle
              ++ [(knobGeom s e m d r).knob_end, e]))) := by
    rw [hA1, h1eq]
    simp [List.append_assoc]
  have happ : (((([s, (knobGeom s e m d r).knob_start]
        ++ arcPts (knobGeom s e m d r).v (knobGeom s e m d r).n
            ((knobGeom s e m d r).knob_start
              + (knobGeom s e m d r).n * (knobGeom s e m d r).small_radius)
            (knobGeom s e m d r).small_radius
            (knobGeom s e m d r).small_start_angle (knobGeom s e m d r).small_end_angle)
        ++ arcPts (knobGeom s e m d r).v (knobGeom s e m d r).n
            ((knobGeom s e m d r).mid
              + (knobGeom s e m d r).n * (knobGeom s e m d r).large_center_distance)
            (knobGeom s e m d r).large_radius
            (knobGeom s e m d r).large_start_angle (knobGeom s e m d r).large_end_angle)
        ++ arcPts (-(knobGeom s e m d r).v) (knobGeom s e m d r).n
            ((knobGeom s e m d r).knob_end
              + (knobGeom s e m d r).n * (knobGeom s e m d r).small_radius)
            (knobGeom s e m d r).small_radius
            (knobGeom s e m d r).small_end_angle (knobGeom s e m d r).small_start_angle)
        ++ [(knobGeom s e m d r).knob_end, e])
      = ([s, (knobGeom s e m d r).knob_start]
          ++ (arcPts (knobGeom s e m d r).v (knobGeom s e m d r).n
              ((knobGeom s e m d r).knob_start
                + (knobGeom s e m d r).n * (knobGeom s e m d r).small_radius)
              (knobGeom s e m d r).small_radius
              (knobGeom s e m d r).small_start_angle (knobGeom s e m d r).small_end_angle
            ++ (arcPts (knobGeom s e m d r).v (knobGeom s e m d r).n
                ((knobGeom s e m d r).mid
                  + (knobGeom s e m d r).n * (knobGeom s e m d r).large_center_distance)
                (knobGeom s e m d r).large_radius
                (knobGeom s e m d r).large_start_angle (knobGeom s e m d r).large_end_angle
              ++ front3)))
        ++ [(knobGeom s e m d r).knob_end, (knobGeom s e m d r).knob_end, e] := by
    rw [hA3, h2eq]
    simp [List.append_assoc]
  exact ⟨_, _, _, make_knob_eq s e m d r h1 h2, hcons, happ⟩

/-- Witness for C10 on the concrete unit edge from (0,0) to (1,0). -/
theorem C10_junction_points_witness :
    ((⟨0, 0⟩ : Vector) ≠ ⟨1, 0⟩ ∧ (0 : ℝ) ≤ 0)
    ∧ circle_point (knobGeom ⟨0, 0⟩ ⟨1, 0⟩ 0 0 0).v (knobGeom ⟨0, 0⟩ ⟨1, 0⟩ 0 0 0).n
        ((knobGeom ⟨0, 0⟩ ⟨1, 0⟩ 0 0 0).knob_start
          + (knobGeom ⟨0, 0⟩ ⟨1, 0⟩ 0 0 0).n * (knobGeom ⟨0, 0⟩ ⟨1, 0⟩ 0 0 0).small_radius)
        (knobGeom ⟨0, 0⟩ ⟨1, 0⟩ 0 0 0).small_radius
        (knobGeom ⟨0, 0⟩ ⟨1, 0⟩ 0 0 0).small_start_angle
      = (knobGeom ⟨0, 0⟩ ⟨1, 0⟩ 0 0 0).knob_start := by
  have hne : (⟨0, 0⟩ : Vector) ≠ ⟨1, 0⟩ := fun h => zero_ne_one (congrArg Vector.x h)
  exact ⟨⟨hne, le_rfl⟩, (C10_junction_points ⟨0, 0⟩ ⟨1, 0⟩ 0 0 0 hne le_rfl).1⟩

lemma length_basis_comb (v : Vector) (dd a b : ℝ) (hv : v.length = 1) (hd : dd ^ 2 = 1) :
    (v * a + (v.reciprocal * dd) * b).length = Real.sqrt (a ^ 2 + b ^ 2) := by
  have hv2 : v.x ^ 2 + v.y ^ 2 = 1 := by
    have h := v.sq_length
    rw [hv, one_pow] at h
    linarith
  show Real.sqrt ((v.x * a + -v.y * dd * b) ^ 2 + (v.y * a + v.x * dd * b) ^ 2)
      = Real.sqrt (a ^ 2 + b ^ 2)
  congr 1
  linear_combination (a ^ 2 + b ^ 2 * dd ^ 2) * hv2 + b ^ 2 * hd

lemma direction_sq (s e : Vector) (m : ℝ) (d : ℕ) (r : ℝ) (h3 : d ≤ 1) :
    (knobGeom s e m d r).direction ^ 2 = 1 := by
  rw [direction_def]
  interval_cases d
  · norm_num
  · norm_num

lemma large_start_tangent (s e : Vector) (m : ℝ) (d : ℕ) (r : ℝ)
    (h1 : s ≠ e) (h2 : 0 ≤ r) :
    circle_point (knobGeom s e m d r).v (knobGeom s e m d r).n
        ((knobGeom s e m d r).mid
          + (knobGeom s e m d r).n * (knobGeom s e m d r).large_center_distance)
        (knobGeom s e m d r).large_radius (knobGeom s e m d r).large_start_angle
      = circle_point (knobGeom s e m d r).v (knobGeom s e m d r).n
        ((knobGeom s e m d r).knob_start
          + (knobGeom s e m d r).n * (knobGeom s e m d r).small_radius)
        (knobGeom s e m d r).small_radius (knobGeom s e m d r).small_end_angle := by
  have hsr := (small_radius_pos s e m d r h1 h2).ne'
  unfold circle_point
  rw [cos_large_start s e m d r h1 h2, sin_large_start s e m d r h1 h2,
    cos_small_end s e m d r h1 h2, sin_small_end s e m d r h1 h2,
    tri_base_eq s e m d r h1, tri_hyp_eq s e m d r,
    knob_start_def, large_center_distance_def, large_radius_def]
  ext <;> simp <;> field_simp <;> ring

lemma large_end_tangent (s e : Vector) (m : ℝ) (d : ℕ) (r : ℝ)
    (h1 : s ≠ e) (h2 : 0 ≤ r) :
    circle_point (knobGeom s e m d r).v (knobGeom s e m d r).n
        ((knobGeom s e m d r).mid
          + (knobGeom s e m d r).n * (knobGeom s e m d r).large_center_distance)
        (knobGeom s e m d r).large_radius (knobGeom s e m d r).large_end_angle
      = circle_point (-(knobGeom s e m d r).v) (knobGeom s e m d r).n
        ((knobGeom s e m d r).knob_end
          + (knobGeom s e m d r).n * (knobGeom s e m d r).small_radius)
        (knobGeom s e m d r).small_radius (knobGeom s e m d r).small_end_angle := by
  have hsr := (small_radius_pos s e m d r h1 h2).ne'
  unfold circle_point
  rw [cos_large_end s e m d r h1 h2, sin_large_end s e m d r h1 h2,
    cos_small_end s e m d r h1 h2, sin_small_end s e m d r h1 h2,
    tri_base_eq s e m d r h1, tri_hyp_eq s e m d r,
    knob_end_def, large_center_distance_def, large_radius_def]
  ext <;> simp <;> field_simp <;> ring

/-- C1: in exact arithmetic the two endpoints of the large arc (sampled at
large_start_angle = (3/4)*tau - large_slice_angle and
large_end_angle = -tau/4 + large_slice_angle) coincide with the tangent
points on the two small circles: the large arc's first sampled point equals
the first small arc's last sampled point (at small_end_angle =
asin(tri_height/tri_hyp)), and the large arc's last sampled point equals
the exit small arc's first sampled point. -/
theorem C1_large_arc_endpoints (s e : Vector) (m : ℝ) (d : ℕ) (r : ℝ)
    (h1 : s ≠ e) (h2 : 0 ≤ r) :
    (arcPts (knobGeom s e m d r).v (knobGeom s e m d r).n
        ((knobGeom s e m d r).knob_start
          + (knobGeom s e m d r).n * (knobGeom s e m d r).small_radius)
        (knobGeom s e m d r).small_radius
        (knobGeom s e m d r).small_start_angle (knobGeom s e m d r).small_end_angle).getLast?
      = (arcPts (knobGeom s e m d r).v (knobGeom s e m d r).n
        ((knobGeom s e m d r).mid
          + (knobGeom s e m d r).n * (knobGeom s e m d r).large_center_distance)
        (knobGeom s e m d r).large_radius
        (knobGeom s e m d r).large_start_angle (knobGeom s e m d r).large_end_angle).head?
    ∧ (arcPts (knobGeom s e m d r).v (knobGeom s e m d r).n
        ((knobGeom s e m d r).mid
          + (knobGeom s e m d r).n * (knobGeom s e m d r).large_center_distance)
        (knobGeom s e m d r).large_radius
        (knobGeom s e m d r).large_start_angle (knobGeom s e m d r).large_end_angle).getLast?
      = (arcPts (-(knobGeom s e m d r).v) (knobGeom s e m d r).n
        ((knobGeom s e m d r).knob_end
          + (knobGeom s e m d r).n * (knobGeom s e m d r).small_radius)
        (knobGeom s e m d r).small_radius
        (knobGeom s e m d r).small_end_angle (knobGeom s e m d r).small_start_angle).head? := by
  constructor
  · rw [arcPts_getLast _ _ _ _ (segment_count_pos (small_arc_span_ne s e m d r h1 h2)),
      arcPts_head, large_start_tangent s e m d r h1 h2]
  · rw [arcPts_getLast _ _ _ _ (segment_count_pos (large_arc_span_ne s e m d r h1 h2)),
      arcPts_head, large_end_tangent s e m d r h1 h2]

/-- Witness for C1 on the concrete unit edge from (0,0) to (1,0). -/
theorem C1_large_arc_endpoints_witness :
    ((⟨0, 0⟩ : Vector) ≠ ⟨1, 0⟩ ∧ (0 : ℝ) ≤ 0)
    ∧ (arcPts (knobGeom ⟨0, 0⟩ ⟨1, 0⟩ 0 0 0).v (knobGeom ⟨0, 0⟩ ⟨1, 0⟩ 0 0 0).n
        ((knobGeom ⟨0, 0⟩ ⟨1, 0⟩ 0 0 0).knob_start
          + (knobGeom ⟨0, 0⟩ ⟨1, 0⟩ 0 0 0).n * (knobGeom ⟨0, 0⟩ ⟨1, 0⟩ 0 0 0).small_radius)
        (knobGeom ⟨0, 0⟩ ⟨1, 0⟩ 0 0 0).small_radius
        (knobGeom ⟨0, 0⟩ ⟨1, 0⟩ 0 0 0).small_start_angle
        (knobGeom ⟨0, 0⟩ ⟨1, 0⟩ 0 0 0).small_end_angle).getLast?
      = (arcPts (knobGeom ⟨0, 0⟩ ⟨1, 0⟩ 0 0 0).v (knobGeom ⟨0, 0⟩ ⟨1, 0⟩ 0 0 0).n
        ((knobGeom ⟨0, 0⟩ ⟨1, 0⟩ 0 0 0).mid
          + (knobGeom ⟨0, 0⟩ ⟨1, 0⟩ 0 0 0).n
            * (knobGeom ⟨0, 0⟩ ⟨1, 0⟩ 0 0 0).large_center_distance)
        (knobGeom ⟨0, 0⟩ ⟨1, 0⟩ 0 0 0).large_radius
        (knobGeom ⟨0, 0⟩ ⟨1, 0⟩ 0 0 0).large_start_angle
        (knobGeom ⟨0, 0⟩ ⟨1, 0⟩ 0 0 0).large_end_angle).head? := by
  have hne : (⟨0, 0⟩ : Vector) ≠ ⟨1, 0⟩ := fun h => zero_ne_one (congrArg Vector.x h)
  exact ⟨⟨hne, le_rfl⟩, (C1_large_arc_endpoints ⟨0, 0⟩ ⟨1, 0⟩ 0 0 0 hne le_rfl).1⟩

/-- C2: the distance between the large-circle center
(mid + n*large_center_distance) and each small-circle center
(knob_start + n*small_radius and knob_end + n*small_radius) equals
small_radius + large_radius exactly: the large circle is tangent to both
small circles. -/
theorem C2_tangent_circles (s e : Vector) (m : ℝ) (d : ℕ) (r : ℝ)
    (h1 : s ≠ e) (h2 : 0 ≤ r) (h3 : d ≤ 1) :
    (((knobGeom s e m d r).mid
        + (knobGeom s e m d r).n * (knobGeom s e m d r).large_center_distance)
      - ((knobGeom s e m d r).knob_start
        + (knobGeom s e m d r).n * (knobGeom s e m d r).small_radius)).length
      = (knobGeom s e m d r).small_radius + (knobGeom s e m d r).large_radius
    ∧ (((knobGeom s e m d r).mid
        + (knobGeom s e m d r).n * (knobGeom s e m d r).large_center_distance)
      - ((knobGeom s e m d r).knob_end
        + (knobGeom s e m d r).n * (knobGeom s e m d r).small_radius)).length
      = (knobGeom s e m d r).small_radius + (knobGeom s e m d r).large_radius := by
  have hv := v_length_one s e m d r h1
  have hd := direction_sq s e m d r h3
  have hb := tri_base_eq s e m d r h1
  have hh := tri_height_sq s e m d r h1 h2
  have hypnn := (tri_hyp_pos s e m d r h1 h2).le
  constructor
  · have hdiff : ((knobGeom s e m d r).mid
        + (knobGeom s e m d r).n * (knobGeom s e m d r).large_center_distance)
        - ((knobGeom s e m d r).knob_start
          + (knobGeom s e m d r).n * (knobGeom s e m d r).small_radius)
        = (knobGeom s e m d r).v * ((knobGeom s e m d r).line_length * 0.1)
          + ((knobGeom s e m d r).v.reciprocal * (knobGeom s e m d r).direction)
            * (knobGeom s e m d r).tri_height := by
      rw [knob_start_def, large_center_distance_def, n_def]
      ext <;> simp <;> ring
    rw [hdiff, length_basis_comb _ _ _ _ hv hd]
    rw [show ((knobGeom s e m d r).line_length * 0.1) ^ 2
          + (knobGeom s e m d r).tri_height ^ 2 = (knobGeom s e m d r).tri_hyp ^ 2 from by
      linear_combination hh
        - ((knobGeom s e m d r).tri_base + (knobGeom s e m d r).line_length * 0.1) * hb]
    rw [Real.sqrt_sq hypnn, tri_hyp_def]
  · have hdiff : ((knobGeom s e m d r).mid
        + (knobGeom s e m d r).n * (knobGeom s e m d r).large_center_distance)
        - ((knobGeom s e m d r).knob_end
          + (knobGeom s e m d r).n * (knobGeom s e m d r).small_radius)
        = (knobGeom s e m d r).v * (-((knobGeom s e m d r).line_length * 0.1))
          + ((knobGeom s e m d r).v.reciprocal * (knobGeom s e m d r).direction)
            * (knobGeom s e m d r).tri_height := by
      rw [knob_end_def, large_center_distance_def, n_def]
      ext <;> simp <;> ring
    rw [hdiff, length_basis_comb _ _ _ _ hv hd]
    rw [show (-((knobGeom s e m d r).line_length * 0.1)) ^ 2
          + (knobGeom s e m d r).tri_height ^ 2 = (knobGeom s e m d r).tri_hyp ^ 2 from by
      linear_combination hh
        - ((knobGeom s e m d r).tri_base + (knobGeom s e m d r).line_length * 0.1) * hb]
    rw [Real.sqrt_sq hypnn, tri_hyp_def]

/-- Witness for C2 on the concrete unit edge from (0,0) to (1,0) with
direction draw 1. -/
theorem C2_tangent_circles_witness :
    ((⟨0, 0⟩ : Vector) ≠ ⟨1, 0⟩ ∧ (0 : ℝ) ≤ 0 ∧ (1 : ℕ) ≤ 1)
    ∧ (((knobGeom ⟨0, 0⟩ ⟨1, 0⟩ 0 1 0).mid
        + (knobGeom ⟨0, 0⟩ ⟨1, 0⟩ 0 1 0).n
          * (knobGeom ⟨0, 0⟩ ⟨1, 0⟩ 0 1 0).large_center_distance)
      - ((knobGeom ⟨0, 0⟩ ⟨1, 0⟩ 0 1 0).knob_start
        + (knobGeom ⟨0, 0⟩ ⟨1, 0⟩ 0 1 0).n
          * (knobGeom ⟨0, 0⟩ ⟨1, 0⟩ 0 1 0).small_radius)).length
      = (knobGeom ⟨0, 0⟩ ⟨1, 0⟩ 0 1 0).small_radius
        + (knobGeom ⟨0, 0⟩ ⟨1, 0⟩ 0 1 0).large_radius := by
  have hne : (⟨0, 0⟩ : Vector) ≠ ⟨1, 0⟩ := fun h => zero_ne_one (congrArg Vector.x h)
  exact ⟨⟨hne, le_rfl, le_rfl⟩, (C2_tangent_circles ⟨0, 0⟩ ⟨1, 0⟩ 0 1 0 hne le_rfl le_rfl).1⟩

lemma filter_flatMap {α β : Type} (l : List α) (f : α → List β) (q : β → Bool) :
    (l.flatMap f).filter q = l.flatMap fun a => (f a).filter q := by
  induction l with
  | nil => rfl
  | cons a l ih => rw [List.flatMap_cons, List.filter_append, ih, List.flatMap_cons]

lemma flatMap_eq_nil_of_forall {α β : Type} (l : List α) (g : α → List β)
    (h : ∀ a ∈ l, g a = []) : l.flatMap g = [] := by
  induction l with
  | nil => rfl
  | cons a l ih =>
    rw [List.flatMap_cons, h a (List.mem_cons_self a l), List.nil_append]
    exact ih fun b hb => h b (List.mem_cons_of_mem a hb)

lemma flatMap_eq_of_nodup {α β : Type} (l : List α) (g : α → List β) (x : α)
    (hnd : l.Nodup) (hmem : x ∈ l) (h : ∀ a ∈ l, a ≠ x → g a = []) :
    l.flatMap g = g x := by
  induction l with
  | nil => exact absurd hmem (List.not_mem_nil x)
  | cons a l ih =>
    rw [List.flatMap_cons]
    rcases List.mem_cons.mp hmem with rfl | hmem2
    · have hnil : l.flatMap g = [] := flatMap_eq_nil_of_forall l g fun b hb =>
        h b (List.mem_cons_of_mem _ hb) fun hbx => (List.nodup_cons.mp hnd).1 (hbx ▸ hb)
      rw [hnil, List.append_nil]
    · have hax : a ≠ x := fun hax => (List.nodup_cons.mp hnd).1 (hax ▸ hmem2)
      rw [h a (List.mem_cons_self a l) hax, List.nil_append]
      exact ih (List.nodup_cons.mp hnd).2 hmem2 fun b hb => h b (List.mem_cons_of_mem _ hb)

lemma horiz_edges_nodup (R C : ℕ) : (horiz_edges R C).Nodup := by
  unfold horiz_edges
  rw [List.nodup_flatMap]
  refine ⟨fun row _ => (List.nodup_range C).map fun a b hab => by simpa using hab, ?_⟩
  refine (List.pairwise_lt_range (R - 1)).imp ?_
  intro r1 r2 hlt x hx1 hx2
  simp only [List.mem_map, List.mem_range] at hx1 hx2
  obtain ⟨c1, _, rfl⟩ := hx1
  obtain ⟨c2, _, heq⟩ := hx2
  have : r2 = r1 := by injection heq
  omega

lemma vert_edges_nodup (R C : ℕ) : (vert_edges R C).Nodup := by
  unfold vert_edges
  rw [List.nodup_flatMap]
  refine ⟨fun row _ => (List.nodup_range (C - 1)).map fun a b hab => by simpa using hab, ?_⟩
  refine (List.pairwise_lt_range R).imp ?_
  intro r1 r2 hlt x hx1 hx2
  simp only [List.mem_map, List.mem_range] at hx1 hx2
  obtain ⟨c1, _, rfl⟩ := hx1
  obtain ⟨c2, _, heq⟩ := hx2
  have : r2 = r1 := by injection heq
  omega

lemma knob_edges_nodup (R C : ℕ) : (knob_edges R C).Nodup := by
  unfold knob_edges
  refine (horiz_edges_nodup R C).append (vert_edges_nodup R C) ?_
  intro x hx1 hx2
  simp only [horiz_edges, vert_edges, List.mem_flatMap, List.mem_map, List.mem_range]
    at hx1 hx2
  obtain ⟨r1, _, c1, _, rfl⟩ := hx1
  obtain ⟨r2, _, c2, _, heq⟩ := hx2
  exact EdgeId.noConfusion heq

lemma horiz_mem (R C row column : ℕ) (hr : row + 1 < R) (hc : column < C) :
    EdgeId.horiz row column ∈ knob_edges R C := by
  unfold knob_edges
  refine List.mem_append_left _ ?_
  unfold horiz_edges
  rw [List.mem_flatMap]
  exact ⟨row, List.mem_range.mpr (by omega),
    List.mem_map.mpr ⟨column, List.mem_range.mpr hc, rfl⟩⟩

lemma vert_mem (R C row column : ℕ) (hr : row < R) (hc : column + 1 < C) :
    EdgeId.vert row column ∈ knob_edges R C := by
  unfold knob_edges
  refine List.mem_append_right _ ?_
  unfold vert_edges
  rw [List.mem_flatMap]
  exact ⟨row, List.mem_range.mpr hr,
    List.mem_map.mpr ⟨column, List.mem_range.mpr (by omega), rfl⟩⟩

lemma knob_writes_filter (R C : ℕ) (dpi : ℝ) (draws : EdgeId → ℝ × ℕ × ℝ) (x : EdgeId)
    (hx : x ∈ knob_edges R C) :
    (knob_writes R C dpi draws).filter (fun ev => decide (ev.1 = x))
      = (edge_dests x).map fun dd => (x, dd, edge_curve R C dpi draws x) := by
  have hinner : ∀ a ∈ knob_edges R C, a ≠ x →
      ((edge_dests a).map fun dd => (a, dd, edge_curve R C dpi draws a)).filter
        (fun ev => decide (ev.1 = x)) = [] := by
    intro a _ hax
    rw [List.filter_eq_nil_iff]
    intro b hb
    simp only [List.mem_map] at hb
    obtain ⟨dd, _, rfl⟩ := hb
    simp [hax]
  unfold knob_writes
  rw [filter_flatMap, flatMap_eq_of_nodup _ _ x (knob_edges_nodup R C) hx hinner,
    List.filter_eq_self.mpr]
  intro b hb
  simp only [List.mem_map] at hb
  obtain ⟨dd, _, rfl⟩ := hb
  simp

/-- C8: in per-piece mode every internal edge's knob curve is computed once
and the identical value is routed to exactly the two destinations bordering
the edge: the events of the horizontal edge at (row, column) are precisely
the writes of its single curve to cells (row, column) and (row+1, column),
and those of the vertical edge at (row, column) are the writes of its
single curve to cells (row, column) and (row, column+1). -/
theorem C8_shared_edge_routing (R C : ℕ) (dpi : ℝ) (draws : EdgeId → ℝ × ℕ × ℝ)
    (row column : ℕ) :
    (row + 1 < R → column < C →
      (knob_writes R C dpi draws).filter
          (fun ev => decide (ev.1 = EdgeId.horiz row column))
        = [(EdgeId.horiz row column, (row, column),
            edge_curve R C dpi draws (EdgeId.horiz row column)),
           (EdgeId.horiz row column, (row + 1, column),
            edge_curve R C dpi draws (EdgeId.horiz row column))])
    ∧ (row < R → column + 1 < C →
      (knob_writes R C dpi draws).filter
          (fun ev => decide (ev.1 = EdgeId.vert row column))
        = [(EdgeId.vert row column, (row, column),
            edge_curve R C dpi draws (EdgeId.vert row column)),
           (EdgeId.vert row column, (row, column + 1),
            edge_curve R C dpi draws (EdgeId.vert row column))]) := by
  constructor
  · intro hr hc
    rw [knob_writes_filter R C dpi draws _ (horiz_mem R C row column hr hc)]
    rfl
  · intro hr hc
    rw [knob_writes_filter R C dpi draws _ (vert_mem R C row column hr hc)]
    rfl

/-- Witness for C8 on a concrete 2-row, 1-column grid: the single internal
horizontal edge routes its one curve to cells (0,0) and (1,0). -/
theorem C8_shared_edge_routing_witness :
    ((0 : ℕ) + 1 < 2 ∧ (0 : ℕ) < 1)
    ∧ (knob_writes 2 1 96 (fun _ => (0, 0, 0))).filter
        (fun ev => decide (ev.1 = EdgeId.horiz 0 0))
      = [(EdgeId.horiz 0 0, (0, 0),
          edge_curve 2 1 96 (fun _ => (0, 0, 0)) (EdgeId.horiz 0 0)),
         (EdgeId.horiz 0 0, (1, 0),
          edge_curve 2 1 96 (fun _ => (0, 0, 0)) (EdgeId.horiz 0 0))] :=
  ⟨⟨by norm_num, by norm_num⟩,
   (C8_shared_edge_routing 2 1 96 (fun _ => (0, 0, 0)) 0 0).1 (by norm_num) (by norm_num)⟩

end

end Jigsaw
